import Mathlib

/-!
Verification development for the tank/turret/cannon-ball simulation in
`src/main.rs` (a Bevy ECS example).

Shallow embedding conventions:

* `f32` scalars are modelled as exact rationals (`ℚ`).  The claims under
  scrutiny are algebraic identities of the update rules, so rational
  arithmetic is the faithful idealisation of the float expressions in the
  source.
* `Vec3` is modelled componentwise; `glam`'s `Vec3 * Vec3` is componentwise
  multiplication and `Vec3 * f32` scales each component, exactly as below.
* `Quat` is modelled as four rational components with the Hamilton product
  (as in `glam`).  Values produced from trigonometric functions
  (`Quat::from_rotation_y`, `angle.sin_cos()`, the constant `PI`) are
  irrational; they enter the embedding as parameters, keeping every
  definition executable while preserving the data flow of the source.
* Bevy queries become lists of component records; `Commands`-deferred
  insert/remove/despawn/spawn are modelled by the state visible after the
  command queue is applied.  Entity lookups (`Query::get`) become a partial
  map `Nat → Option _`; the `unwrap` in `turret_shoot` becomes the `Option`
  layer of its model.
-/

/-- A 3-vector with rational components, modelling `glam::Vec3`. -/
structure Vec3 where
  x : ℚ
  y : ℚ
  z : ℚ
  deriving DecidableEq, Repr

namespace Vec3

/-- Componentwise addition (`Vec3 + Vec3`). -/
def add (a b : Vec3) : Vec3 := ⟨a.x + b.x, a.y + b.y, a.z + b.z⟩

instance : Add Vec3 := ⟨add⟩

/-- Componentwise multiplication (`glam`'s `Vec3 * Vec3`). -/
def cmul (a b : Vec3) : Vec3 := ⟨a.x * b.x, a.y * b.y, a.z * b.z⟩

instance : Mul Vec3 := ⟨cmul⟩

/-- Scaling by a scalar (`Vec3 * f32`). -/
def scale (s : ℚ) (a : Vec3) : Vec3 := ⟨s * a.x, s * a.y, s * a.z⟩

instance : SMul ℚ Vec3 := ⟨scale⟩

/-- `Vec3::length_squared`. -/
def lengthSq (a : Vec3) : ℚ := a.x * a.x + a.y * a.y + a.z * a.z

/-- Squared planar norm of the xz-swizzle: `v.xz().length()` squared. -/
def xzLengthSq (a : Vec3) : ℚ := a.x * a.x + a.z * a.z

/-- Models the comparison `v.xz().length() > r`.  The source compares the
nonnegative square root `sqrt (x² + z²)` against `r`; over the rationals
that comparison holds exactly when `r < 0` or `r² < x² + z²`, which is how
we embed it without introducing square roots. -/
def xzLengthGt (a : Vec3) (r : ℚ) : Bool :=
  decide (r < 0) || decide (r * r < xzLengthSq a)

@[simp] theorem add_def (a b : Vec3) :
    a + b = ⟨a.x + b.x, a.y + b.y, a.z + b.z⟩ := rfl

@[simp] theorem mul_def (a b : Vec3) :
    a * b = ⟨a.x * b.x, a.y * b.y, a.z * b.z⟩ := rfl

@[simp] theorem smul_def (s : ℚ) (a : Vec3) :
    s • a = ⟨s * a.x, s * a.y, s * a.z⟩ := rfl

end Vec3

/-- A quaternion with rational components, modelling `glam::Quat`
(`x`, `y`, `z` imaginary parts, `w` real part). -/
structure Quat where
  x : ℚ
  y : ℚ
  z : ℚ
  w : ℚ
  deriving DecidableEq, Repr

namespace Quat

/-- The identity rotation, `Quat::IDENTITY` / `default()`. -/
def id : Quat := ⟨0, 0, 0, 1⟩

/-- Hamilton product `a * b`, as implemented by `glam`. -/
def mul (a b : Quat) : Quat :=
  ⟨a.w * b.x + a.x * b.w + a.y * b.z - a.z * b.y,
   a.w * b.y - a.x * b.z + a.y * b.w + a.z * b.x,
   a.w * b.z + a.x * b.y - a.y * b.x + a.z * b.w,
   a.w * b.w - a.x * b.x - a.y * b.y - a.z * b.z⟩

instance : Mul Quat := ⟨mul⟩

end Quat

/-- `const GRAVITY: Vec3 = Vec3::new(0.0, -9.82, 0.0);` -/
def GRAVITY : Vec3 := ⟨0, -9.82, 0⟩

/-- `const INVERT_Y: Vec3 = Vec3::new(1.0, -1.0, 1.0);` -/
def INVERT_Y : Vec3 := ⟨1, -1, 1⟩

/-- The state of one `CannonBall` entity: its `Transform` translation and
its `CannonBall { velocity }` component. -/
structure Ball where
  pos : Vec3
  vel : Vec3
  deriving DecidableEq, Repr

namespace Ball

/-- `transform.translation += cannon_ball.velocity * dt;` — the position
update that opens each iteration of `cannon_ball_velocity`. -/
def move (dt : ℚ) (b : Ball) : Ball :=
  { b with pos := b.pos + dt • b.vel }

/-- The bounce branch of `cannon_ball_velocity`:
`if transform.translation.y < 0.0 { translation *= INVERT_Y; velocity *= INVERT_Y * 0.8; }`.
Note that `INVERT_Y * 0.8 = (0.8, -0.8, 0.8)`, so the componentwise product
scales every velocity component by `0.8`, not just the vertical one. -/
def bounce (b : Ball) : Ball :=
  if b.pos.y < 0 then
    { pos := b.pos * INVERT_Y, vel := b.vel * ((0.8 : ℚ) • INVERT_Y) }
  else b

/-- `cannon_ball.velocity += GRAVITY * dt;` -/
def grav (dt : ℚ) (b : Ball) : Ball :=
  { b with vel := b.vel + dt • GRAVITY }

/-- One full iteration of the loop body of `cannon_ball_velocity` for one
ball: move by velocity, bounce if below ground, apply gravity, then flag
the ball for despawn (`commands.entity(entity).despawn()`) when
`velocity.length_squared() < 0.1`.  Returns the updated state and the
despawn flag. -/
def step (dt : ℚ) (b : Ball) : Ball × Bool :=
  let b' := grav dt (bounce (move dt b))
  (b', decide (b'.vel.lengthSq < 0.1))

/-- Iterating the state part of `step` `n` times (a ball that keeps being
simulated for `n` frames with a fixed `dt`). -/
def iter (dt : ℚ) : ℕ → Ball → Ball
  | 0, b => b
  | n + 1, b => (step dt (iter dt n b)).1

/-- The whole `cannon_ball_velocity` system over the query's balls: each
ball is stepped, and the despawn-flagged ones are removed (the deferred
`despawn` command, once applied). -/
def system (dt : ℚ) (bs : List Ball) : List Ball :=
  bs.filterMap (fun b =>
    let r := step dt b
    if r.2 then none else some r.1)

end Ball

/-- The state of one `Tank` root entity: its entity index (used as a noise
seed in `tank_move`) and its `Transform` translation and rotation. -/
structure Tank where
  id : ℕ
  translation : Vec3
  rotation : Quat
  deriving DecidableEq, Repr

namespace Tank

/-- The loop body of `tank_move` for one tank.  The engine-supplied
irrational ingredients are parameters: `noise` models
`NoiseGenerator::new("Nose").get`, `sinq`/`cosq` model `angle.sin_cos()`
(which returns `(sin angle, cos angle)`), `rotY` models
`Quat::from_rotation_y`, and `pi` models the `f32` constant `PI`. -/
def move (noise : ℚ → ℚ → ℚ → ℚ) (sinq cosq : ℚ → ℚ) (rotY : ℚ → Quat)
    (pi dt : ℚ) (tk : Tank) : Tank :=
  let pos := tk.translation
  let pos : Vec3 := ⟨pos.x, (tk.id : ℚ), pos.z⟩
  let pos : Vec3 := (1 / 10 : ℚ) • pos
  let angle : ℚ := (0.5 + noise pos.x pos.y pos.z) * 4 * pi
  { tk with
    rotation := rotY angle
    translation := tk.translation + (dt * 5) • (⟨sinq angle, 0, cosq angle⟩ : Vec3) }

end Tank

/-- The state of one `Turret` entity: the entity id stored in
`Turret { spawn_point }`, the local `Transform` rotation, the
engine-propagated `GlobalTransform` data that the per-frame systems read
(its world translation and its world `up()` direction), and whether the
`Shooting` marker component is present. -/
structure Turret where
  spawnPoint : ℕ
  rotation : Quat
  worldPos : Vec3
  up : Vec3
  shooting : Bool

namespace Turret

/-- The loop body of `check_safe_zone` for one turret, with the deferred
`insert Shooting` / `remove::<Shooting>` commands applied: if the planar
distance of the world position from the origin exceeds the radius and the
marker is absent, insert it; if within the radius and present, remove it. -/
def checkSafeZone (radius : ℚ) (t : Turret) : Turret :=
  if t.worldPos.xzLengthGt radius then
    if t.shooting = false then { t with shooting := true } else t
  else
    if t.shooting = true then { t with shooting := false } else t

/-- The loop body of `turret_rotate` for one turret:
`transform.rotation = rotation_y * transform.rotation`, where `rotationY`
is the per-frame quaternion `Quat::from_rotation_y(dt * PI)`. -/
def rotate (rotationY : Quat) (t : Turret) : Turret :=
  { t with rotation := rotationY * t.rotation }

end Turret

/-- The `check_safe_zone` system over the query's turrets. -/
def checkSafeZoneSystem (radius : ℚ) (ts : List Turret) : List Turret :=
  ts.map (Turret.checkSafeZone radius)

/-- The `turret_rotate` system over the query's turrets. -/
def turretRotateSystem (rotationY : Quat) (ts : List Turret) : List Turret :=
  ts.map (Turret.rotate rotationY)

/-- The `turret_shoot` system.  The query filters turrets `With<Shooting>`;
for each such turret the spawn point's `GlobalTransform` is looked up
(`global_transform_query.get(turret.spawn_point)`, modelled by the partial
map `gt`) and one `CannonBall` is spawned at its translation with velocity
`global_transform.up() * 20.0`.  A failed lookup is the source's
`.unwrap()` panic, modelled as `none` for the whole system run. -/
def turretShootSystem (gt : ℕ → Option Vec3) : List Turret → Option (List Ball)
  | [] => some []
  | t :: rest =>
    if t.shooting then
      match gt t.spawnPoint with
      | none => none
      | some p =>
        (turretShootSystem gt rest).map
          (fun bs => ({ pos := p, vel := (20 : ℚ) • t.up } : Ball) :: bs)
    else turretShootSystem gt rest

/-- The `TankConfig` resource. -/
structure TankConfig where
  tank_count : ℕ
  safe_zone_radius : ℚ

/-- The entity state the per-frame systems touch: the `Tank`, `Turret` and
`CannonBall` entities (the ground plane, light, camera, safe-zone sphere,
and the purely visual `Cannon`/`SpawnPoint` hierarchy carry no per-frame
logic of their own; the spawn points' world transforms are engine-derived
and enter `frameStep` through its lookup parameter). -/
structure World where
  tanks : List Tank
  turrets : List Turret
  balls : List Ball

/-- The `tank_spawn` startup system: one iteration of the `for` loop per
`tank_config.tank_count`, each spawning a Tank→Turret→Cannon→SpawnPoint
hierarchy.  Entity ids are engine-allocated and opaque; the model numbers
the hierarchies `0, 1, …` so that turret `i` stores spawn-point id `i`.
Tanks start at `Transform::from_xyz(0.0, 0.5, 0.0)`; the turret's local
rotation `Quat::from_rotation_x(45.0)` is the parameter `rotX45`; fresh
`GlobalTransform`s are the identity (world position at the origin, world
up `(0, 1, 0)`) until the engine propagates transforms. -/
def tankSpawn (rotX45 : Quat) (cfg : TankConfig) : World :=
  { tanks := (List.range cfg.tank_count).map
      (fun i => { id := i, translation := ⟨0, 0.5, 0⟩, rotation := Quat.id })
    turrets := (List.range cfg.tank_count).map
      (fun i => { spawnPoint := i, rotation := rotX45,
                  worldPos := ⟨0, 0, 0⟩, up := ⟨0, 1, 0⟩, shooting := false })
    balls := [] }

/-- The engine-supplied per-frame environment: elapsed time `dt`, the `f32`
constant `PI`, the noise generator, `sin`/`cos`, `Quat::from_rotation_y`,
and the `GlobalTransform` lookup for spawn-point entities. -/
structure FrameEnv where
  dt : ℚ
  pi : ℚ
  noise : ℚ → ℚ → ℚ → ℚ
  sinq : ℚ → ℚ
  cosq : ℚ → ℚ
  rotY : ℚ → Quat
  gtLookup : ℕ → Option Vec3

/-- One frame of the update schedule registered in `main`:
`tank_move`, `cannon_ball_velocity`, `check_safe_zone`, `turret_rotate`,
and `turret_shoot.after(turret_rotate)`.  `turret_rotate` mutates
transforms directly, so `turret_shoot` runs on the rotated turrets, while
the marker changes made by `check_safe_zone` go through `Commands` and are
applied at the end of the frame — `turret_shoot` sees the previous frame's
`Shooting` flags.  `none` models a panic of `turret_shoot`'s `unwrap`. -/
def frameStep (env : FrameEnv) (cfg : TankConfig) (w : World) : Option World :=
  let tanks := w.tanks.map
    (Tank.move env.noise env.sinq env.cosq env.rotY env.pi env.dt)
  let balls := Ball.system env.dt w.balls
  let turretsR := turretRotateSystem (env.rotY (env.dt * env.pi)) w.turrets
  match turretShootSystem env.gtLookup turretsR with
  | none => none
  | some newBalls =>
    some { tanks := tanks
           turrets := checkSafeZoneSystem cfg.safe_zone_radius turretsR
           balls := balls ++ newBalls }

/-! ## Basic lemmas about the projectile step -/

theorem Ball.step_fst (dt : ℚ) (b : Ball) :
    (Ball.step dt b).1 = Ball.grav dt (Ball.bounce (Ball.move dt b)) := rfl

theorem Ball.move_vel (dt : ℚ) (b : Ball) : (Ball.move dt b).vel = b.vel := rfl

theorem Ball.grav_pos (dt : ℚ) (b : Ball) : (Ball.grav dt b).pos = b.pos := rfl

theorem Ball.bounce_of_neg {b : Ball} (h : b.pos.y < 0) :
    Ball.bounce b =
      { pos := b.pos * INVERT_Y, vel := b.vel * ((0.8 : ℚ) • INVERT_Y) } := by
  rw [Ball.bounce, if_pos h]

theorem Ball.bounce_of_nonneg {b : Ball} (h : ¬ b.pos.y < 0) :
    Ball.bounce b = b := by
  rw [Ball.bounce, if_neg h]

/-- On a step with no ground contact, the velocity update is exactly one
gravity increment. -/
theorem Ball.step_vel_of_no_contact (dt : ℚ) (b : Ball)
    (h : ¬ (Ball.move dt b).pos.y < 0) :
    (Ball.step dt b).1.vel = b.vel + dt • GRAVITY := by
  rw [Ball.step_fst, Ball.bounce_of_nonneg h]
  rfl

/-- Claim C2: for every projectile whose position update in a step makes its
vertical position drop below 0, the step reflects the vertical position to
a non-negative value (`y` becomes `-y`), and the bounce replaces the
vertical velocity component by its negation scaled by the restitution
factor `0.8` (gravity is added to the velocity afterwards, and leaves the
position untouched). -/
theorem cannonBall_bounce_reflects_vertical (dt : ℚ) (b : Ball)
    (h : (Ball.move dt b).pos.y < 0) :
    (Ball.step dt b).1.pos.y = -(Ball.move dt b).pos.y ∧
    0 ≤ (Ball.step dt b).1.pos.y ∧
    (Ball.bounce (Ball.move dt b)).vel.y = -(0.8 * b.vel.y) := by
  have hy : (Ball.step dt b).1.pos.y = -(Ball.move dt b).pos.y := by
    rw [Ball.step_fst, Ball.grav_pos, Ball.bounce_of_neg h]
    simp [INVERT_Y]
  refine ⟨hy, ?_, ?_⟩
  · rw [hy]; linarith
  · rw [Ball.bounce_of_neg h, Ball.move_vel]
    simp [INVERT_Y]
    ring

/-- Witness for C2 at `dt = 1`, `pos = (0, 2, 0)`, `vel = (0, -3, 0)`. -/
theorem cannonBall_bounce_reflects_vertical_witness :
    (Ball.move 1 ⟨⟨0, 2, 0⟩, ⟨0, -3, 0⟩⟩).pos.y < 0 ∧
    ((Ball.step 1 ⟨⟨0, 2, 0⟩, ⟨0, -3, 0⟩⟩).1.pos.y
        = -(Ball.move 1 ⟨⟨0, 2, 0⟩, ⟨0, -3, 0⟩⟩).pos.y ∧
     0 ≤ (Ball.step 1 ⟨⟨0, 2, 0⟩, ⟨0, -3, 0⟩⟩).1.pos.y ∧
     (Ball.bounce (Ball.move 1 ⟨⟨0, 2, 0⟩, ⟨0, -3, 0⟩⟩)).vel.y
        = -(0.8 * (⟨⟨0, 2, 0⟩, ⟨0, -3, 0⟩⟩ : Ball).vel.y)) :=
  ⟨by norm_num [Ball.move],
   cannonBall_bounce_reflects_vertical 1 _ (by norm_num [Ball.move])⟩

/-- Claim C3, counterexample: the claim "the horizontal (x and z) components
of the projectile's velocity are left unchanged by the bounce" fails: at
`dt = 1`, `pos = (0, 1, 0)`, `vel = (1, -2, 1)` the position update yields
`y = -1 < 0` (a bounce step), yet the step changes the x-velocity from `1`
to `0.8`, because `velocity *= INVERT_Y * 0.8` multiplies every component
by `0.8`. -/
theorem bounce_changes_horizontal_velocity_cex :
    (Ball.move 1 ⟨⟨0, 1, 0⟩, ⟨1, -2, 1⟩⟩).pos.y < 0 ∧
    ¬ ((Ball.step 1 ⟨⟨0, 1, 0⟩, ⟨1, -2, 1⟩⟩).1.vel.x
        = (⟨⟨0, 1, 0⟩, ⟨1, -2, 1⟩⟩ : Ball).vel.x) := by
  constructor
  · norm_num [Ball.move]
  · norm_num [Ball.step, Ball.grav, Ball.bounce, Ball.move, INVERT_Y, GRAVITY]

/-- Claim C3, amended: on a bounce step (resulting height below 0), the
horizontal components of the projectile's *position* are left unchanged by
the bounce, but the horizontal components of its velocity are scaled by the
restitution factor `0.8` (not left unchanged); the vertical components are
reflected and inverted-and-dampened as in C2. -/
theorem bounce_horizontal_effect (dt : ℚ) (b : Ball)
    (h : (Ball.move dt b).pos.y < 0) :
    (Ball.step dt b).1.pos.x = (Ball.move dt b).pos.x ∧
    (Ball.step dt b).1.pos.z = (Ball.move dt b).pos.z ∧
    (Ball.step dt b).1.vel.x = 0.8 * b.vel.x ∧
    (Ball.step dt b).1.vel.z = 0.8 * b.vel.z := by
  rw [Ball.step_fst, Ball.bounce_of_neg h]
  refine ⟨?_, ?_, ?_, ?_⟩ <;>
    simp [Ball.grav, Ball.move, INVERT_Y, GRAVITY] <;> ring

/-- Witness for the amended C3 at `dt = 1`, `pos = (0, 1, 0)`,
`vel = (1, -2, 1)`. -/
theorem bounce_horizontal_effect_witness :
    (Ball.move 1 ⟨⟨0, 1, 0⟩, ⟨1, -2, 1⟩⟩).pos.y < 0 ∧
    ((Ball.step 1 ⟨⟨0, 1, 0⟩, ⟨1, -2, 1⟩⟩).1.pos.x
        = (Ball.move 1 ⟨⟨0, 1, 0⟩, ⟨1, -2, 1⟩⟩).pos.x ∧
     (Ball.step 1 ⟨⟨0, 1, 0⟩, ⟨1, -2, 1⟩⟩).1.pos.z
        = (Ball.move 1 ⟨⟨0, 1, 0⟩, ⟨1, -2, 1⟩⟩).pos.z ∧
     (Ball.step 1 ⟨⟨0, 1, 0⟩, ⟨1, -2, 1⟩⟩).1.vel.x
        = 0.8 * (⟨⟨0, 1, 0⟩, ⟨1, -2, 1⟩⟩ : Ball).vel.x ∧
     (Ball.step 1 ⟨⟨0, 1, 0⟩, ⟨1, -2, 1⟩⟩).1.vel.z
        = 0.8 * (⟨⟨0, 1, 0⟩, ⟨1, -2, 1⟩⟩ : Ball).vel.z) :=
  ⟨by norm_num [Ball.move],
   bounce_horizontal_effect 1 _ (by norm_num [Ball.move])⟩

/-- Claim C5: a projectile is despawned by the integration step exactly when,
after that step's gravity update, the squared magnitude of its velocity is
below the destruction threshold `0.1`; with post-step squared magnitude
`≥ 0.1` it is never despawned by that step. -/
theorem cannonBall_despawn_iff (dt : ℚ) (b : Ball) :
    (Ball.step dt b).2 = true ↔ (Ball.step dt b).1.vel.lengthSq < 0.1 := by
  simp [Ball.step]

/-- Claim C4: if no integration step among the first `n` steps triggers a
ground contact (the vertical position never drops below 0 after the
position update), the projectile's velocity after `n` steps equals its
initial velocity plus `n × gravity × dt`, with `GRAVITY = (0, -9.82, 0)`
and a fixed per-step `dt`. -/
theorem cannonBall_velocity_linear (dt : ℚ) (n : ℕ) (b : Ball)
    (h : ∀ k, k < n → ¬ (Ball.move dt (Ball.iter dt k b)).pos.y < 0) :
    (Ball.iter dt n b).vel = b.vel + ((n : ℚ) * dt) • GRAVITY := by
  induction n with
  | zero =>
    cases b with
    | mk p v =>
      cases v with
      | mk vx vy vz =>
        simp [Ball.iter, GRAVITY]
  | succ n ih =>
    have hstep := Ball.step_vel_of_no_contact dt (Ball.iter dt n b)
      (h n (Nat.lt_succ_self n))
    have hvel : (Ball.iter dt (n + 1) b).vel
        = (Ball.iter dt n b).vel + dt • GRAVITY := hstep
    rw [hvel, ih (fun k hk => h k (Nat.lt_succ_of_lt hk))]
    cases b with
    | mk p v =>
      cases v with
      | mk vx vy vz =>
        simp [GRAVITY]
        ring

/-- Shared hypothesis of the C4 witness: with `dt = 1`, a ball dropped from
`(0, 1000, 0)` at rest touches no ground during its first two steps. -/
theorem velocity_linear_witness_hyp :
    ∀ k, k < 2 →
      ¬ (Ball.move 1 (Ball.iter 1 k ⟨⟨0, 1000, 0⟩, ⟨0, 0, 0⟩⟩)).pos.y < 0 := by
  intro k hk
  interval_cases k
  · norm_num [Ball.iter, Ball.move]
  · have h1 : Ball.iter 1 1 ⟨⟨0, 1000, 0⟩, ⟨0, 0, 0⟩⟩
        = (Ball.step 1 ⟨⟨0, 1000, 0⟩, ⟨0, 0, 0⟩⟩).1 := rfl
    rw [h1]
    norm_num [Ball.step, Ball.grav, Ball.bounce, Ball.move, GRAVITY]

/-- Witness for C4 at `dt = 1`, `n = 2`, `pos = (0, 1000, 0)`, `vel = 0`. -/
theorem cannonBall_velocity_linear_witness :
    (∀ k, k < 2 →
      ¬ (Ball.move 1 (Ball.iter 1 k ⟨⟨0, 1000, 0⟩, ⟨0, 0, 0⟩⟩)).pos.y < 0) ∧
    (Ball.iter 1 2 ⟨⟨0, 1000, 0⟩, ⟨0, 0, 0⟩⟩).vel
      = (⟨⟨0, 1000, 0⟩, ⟨0, 0, 0⟩⟩ : Ball).vel + ((2 : ℚ) * 1) • GRAVITY :=
  ⟨velocity_linear_witness_hyp,
   cannonBall_velocity_linear 1 2 _ velocity_linear_witness_hyp⟩

/-! ## The safe-zone check -/

theorem Vec3.xzLengthGt_iff {r : ℚ} (hr : 0 ≤ r) (v : Vec3) :
    v.xzLengthGt r = true ↔ r * r < v.xzLengthSq := by
  have h0 : ¬ r < 0 := not_lt.2 hr
  simp [Vec3.xzLengthGt, h0]

theorem Turret.checkSafeZone_shooting (radius : ℚ) (t : Turret) :
    (Turret.checkSafeZone radius t).shooting = t.worldPos.xzLengthGt radius := by
  cases hB : t.worldPos.xzLengthGt radius <;>
    simp [Turret.checkSafeZone, hB] <;>
    cases ht : t.shooting <;> simp [ht]

theorem Turret.checkSafeZone_worldPos (radius : ℚ) (t : Turret) :
    (Turret.checkSafeZone radius t).worldPos = t.worldPos := by
  cases hB : t.worldPos.xzLengthGt radius <;>
    simp [Turret.checkSafeZone, hB] <;>
    cases ht : t.shooting <;> simp [ht]

/-- Claim C1: after each run of the safe-zone check, every turret carries the
`Shooting` marker if and only if the planar (xz) distance of its world
position from the origin exceeds the configured safe-zone radius — stated
for `radius ≥ 0` via squares (`radius² < x² + z²` is `sqrt (x² + z²) >
radius` for a nonnegative radius).  The turret list and the flags they
start with are arbitrary, so this holds on every frame. -/
theorem checkSafeZone_shooting_iff (radius : ℚ) (ts : List Turret)
    (hr : 0 ≤ radius) :
    ∀ t ∈ checkSafeZoneSystem radius ts,
      (t.shooting = true ↔ radius * radius < t.worldPos.xzLengthSq) := by
  intro t ht
  rcases List.mem_map.1 ht with ⟨t0, _ht0, rfl⟩
  rw [Turret.checkSafeZone_shooting, Turret.checkSafeZone_worldPos]
  exact Vec3.xzLengthGt_iff hr t0.worldPos

/-- Witness for C1: radius `4`, one turret at world position `(3, 0, 4)`
(planar distance `5`), not yet shooting. -/
theorem checkSafeZone_shooting_iff_witness :
    (0 : ℚ) ≤ 4 ∧
    ∀ t ∈ checkSafeZoneSystem 4
        [⟨0, Quat.id, ⟨3, 0, 4⟩, ⟨0, 1, 0⟩, false⟩],
      (t.shooting = true ↔ (4 : ℚ) * 4 < t.worldPos.xzLengthSq) :=
  ⟨by norm_num, checkSafeZone_shooting_iff 4 _ (by norm_num)⟩

/-! ## The firing system -/

/-- Claim C6: on a frame where every shooting turret's spawn point resolves,
the firing system spawns exactly one projectile per turret carrying the
`Shooting` marker — positioned at the world translation of that turret's
spawn-point entity, with initial velocity the turret's world up direction
times the launch speed `20.0` — and none for unmarked turrets: the spawned
list is exactly the image of the marker-filtered turret list. -/
theorem turretShoot_spawns (gt : ℕ → Option Vec3) (ts : List Turret)
    (h : ∀ t ∈ ts, t.shooting = true → (gt t.spawnPoint).isSome) :
    turretShootSystem gt ts
      = some ((ts.filter (fun t => t.shooting)).map
          (fun t => ({ pos := (gt t.spawnPoint).getD ⟨0, 0, 0⟩,
                       vel := (20 : ℚ) • t.up } : Ball))) := by
  induction ts with
  | nil => rfl
  | cons t rest ih =>
    have ih' := ih (fun u hu => h u (List.mem_cons_of_mem t hu))
    cases hs : t.shooting with
    | false =>
      rw [turretShootSystem, if_neg (by simp [hs]), ih']
      simp [hs]
    | true =>
      rcases Option.isSome_iff_exists.1
        (h t (List.mem_cons_self t rest) hs) with ⟨p, hp⟩
      rw [turretShootSystem, if_pos (by simp [hs]), hp, ih']
      simp [hs, hp]

/-- Witness for C6: one marked turret whose spawn point `7` resolves to
`(1, 2, 3)`, launching along world up `(0, 1, 0)`. -/
theorem turretShoot_spawns_witness :
    (∀ t ∈ ([⟨7, Quat.id, ⟨9, 0, 0⟩, ⟨0, 1, 0⟩, true⟩] : List Turret),
        t.shooting = true →
        ((fun _ => some (⟨1, 2, 3⟩ : Vec3)) t.spawnPoint).isSome) ∧
    turretShootSystem (fun _ => some (⟨1, 2, 3⟩ : Vec3))
        [⟨7, Quat.id, ⟨9, 0, 0⟩, ⟨0, 1, 0⟩, true⟩]
      = some ((([⟨7, Quat.id, ⟨9, 0, 0⟩, ⟨0, 1, 0⟩, true⟩] : List Turret).filter
            (fun t => t.shooting)).map
          (fun t => ({ pos := ((fun _ => some (⟨1, 2, 3⟩ : Vec3)) t.spawnPoint).getD ⟨0, 0, 0⟩,
                       vel := (20 : ℚ) • t.up } : Ball))) :=
  ⟨by simp, turretShoot_spawns _ _ (by simp)⟩

/-- Claim C8: under the invariant that every turret's stored spawn-point
handle resolves to an entity with a world transform, the lookup in the
firing system never fails: the panic branch of the `unwrap` (the `none`
outcome of the model) is unreachable. -/
theorem turretShoot_no_panic (gt : ℕ → Option Vec3) (ts : List Turret)
    (h : ∀ t ∈ ts, (gt t.spawnPoint).isSome) :
    (turretShootSystem gt ts).isSome := by
  induction ts with
  | nil => simp [turretShootSystem]
  | cons t rest ih =>
    have ih' := ih (fun u hu => h u (List.mem_cons_of_mem t hu))
    cases hs : t.shooting with
    | false =>
      rw [turretShootSystem, if_neg (by simp [hs])]
      exact ih'
    | true =>
      rcases Option.isSome_iff_exists.1
        (h t (List.mem_cons_self t rest)) with ⟨p, hp⟩
      rw [turretShootSystem, if_pos (by simp [hs]), hp]
      rcases Option.isSome_iff_exists.1 ih' with ⟨bs, hbs⟩
      rw [hbs]
      rfl

/-- Witness for C8: two turrets (one marked, one not) over a total lookup. -/
theorem turretShoot_no_panic_witness :
    (∀ t ∈ ([⟨0, Quat.id, ⟨9, 0, 0⟩, ⟨0, 1, 0⟩, true⟩,
             ⟨1, Quat.id, ⟨0, 0, 0⟩, ⟨0, 1, 0⟩, false⟩] : List Turret),
        ((fun _ => some (⟨0, 1, 0⟩ : Vec3)) t.spawnPoint).isSome) ∧
    (turretShootSystem (fun _ => some (⟨0, 1, 0⟩ : Vec3))
        [⟨0, Quat.id, ⟨9, 0, 0⟩, ⟨0, 1, 0⟩, true⟩,
         ⟨1, Quat.id, ⟨0, 0, 0⟩, ⟨0, 1, 0⟩, false⟩]).isSome :=
  ⟨by simp, turretShoot_no_panic _ _ (by simp)⟩

/-! ## Tanks: startup count and frame-pipeline preservation -/

theorem Tank.move_id (noise : ℚ → ℚ → ℚ → ℚ) (sinq cosq : ℚ → ℚ)
    (rotY : ℚ → Quat) (pi dt : ℚ) (tk : Tank) :
    (Tank.move noise sinq cosq rotY pi dt tk).id = tk.id := rfl

/-- Claim C9: exactly `tank_count` `Tank` entities are created at startup,
and a frame of the pipeline never despawns a tank: whenever `frameStep`
completes, the tank entities of the resulting world are those of the input
world (only their transforms were updated by `tank_move`; the only despawn
in the program targets projectiles, in `Ball.system`). -/
theorem tank_entities_preserved (rotX45 : Quat) (cfg : TankConfig)
    (env : FrameEnv) (c : TankConfig) (w w' : World)
    (h : frameStep env c w = some w') :
    (tankSpawn rotX45 cfg).tanks.length = cfg.tank_count ∧
    w'.tanks.map Tank.id = w.tanks.map Tank.id := by
  refine ⟨by simp [tankSpawn], ?_⟩
  rw [frameStep] at h
  cases hts : turretShootSystem env.gtLookup
      (turretRotateSystem (env.rotY (env.dt * env.pi)) w.turrets) with
  | none => rw [hts] at h; cases h
  | some nb =>
    rw [hts] at h
    cases h
    rw [List.map_map]
    rfl

/-- Witness for C9: the empty world steps to itself under a trivial
environment, and a 20-tank configuration spawns 20 tanks. -/
theorem tank_entities_preserved_witness :
    frameStep ⟨0, 0, fun _ _ _ => 0, fun _ => 0, fun _ => 0,
               fun _ => Quat.id, fun _ => some ⟨0, 0, 0⟩⟩
        ⟨0, 8⟩ ⟨[], [], []⟩ = some ⟨[], [], []⟩ ∧
    ((tankSpawn Quat.id ⟨20, 8⟩).tanks.length = 20 ∧
     (⟨[], [], []⟩ : World).tanks.map Tank.id
        = (⟨[], [], []⟩ : World).tanks.map Tank.id) :=
  ⟨rfl, tank_entities_preserved Quat.id ⟨20, 8⟩
    ⟨0, 0, fun _ _ _ => 0, fun _ => 0, fun _ => 0,
     fun _ => Quat.id, fun _ => some ⟨0, 0, 0⟩⟩
    ⟨0, 8⟩ ⟨[], [], []⟩ ⟨[], [], []⟩ rfl⟩

/-- Claim C10: the tank movement update never changes a tank's vertical
position: the per-frame displacement is `(sin angle, 0, cos angle) * dt *
5`, whose `y` component is zero, so the translation's `y` is preserved for
every noise sample, every trigonometric evaluation, and every `dt`. -/
theorem tankMove_preserves_y (noise : ℚ → ℚ → ℚ → ℚ) (sinq cosq : ℚ → ℚ)
    (rotY : ℚ → Quat) (pi dt : ℚ) (tk : Tank) :
    (Tank.move noise sinq cosq rotY pi dt tk).translation.y
      = tk.translation.y := by
  simp [Tank.move]
